import Mathlib

/-!
# Front-end controller and renderer of the task planner (`frontend/script.js`)

A shallow embedding of `generateTaskPlan`, `displayTaskPlan` and `displayError`.
The page is a record of the observable properties of the six elements the script
holds, plus the log of `fetch` calls and of `console.error` calls.  The network
step is a parameter: the outcome of the one `fetch` and of `response.json()`.
-/

namespace Unthinkable

/-! ## Values produced by `response.json()` -/

/-- A value as `JSON.parse` produces it.  `num n` is the number that a JSON literal
with the integer value `n` parses to; numbers with a fractional part are outside
the model. -/
inductive Json where
  | null : Json
  | bool (b : Bool) : Json
  | num (n : Int) : Json
  | str (s : String) : Json
  | arr (xs : List Json) : Json
  | obj (kvs : List (String × Json)) : Json

/-- Texts of the exceptions the engine itself raises; they differ between engines. -/
structure Engine where
  /-- message of the TypeError for reading property `p` of `null` -/
  readOfNull : String → String
  /-- message of the TypeError for reading property `p` of `undefined` -/
  readOfUndefined : String → String
  /-- message of the TypeError for calling `task.dependencies.map` when it is no function -/
  notAFunction : String → String
  /-- message of the TypeError for an object that has no primitive value -/
  cannotConvert : String
  /-- `ToNumber(s) > 0` for a string `s` -/
  strGtZero : String → Bool
  /-- `String(x)` for the number `x` that an integer literal beyond the safe range
  parses to (rounded to a double, in exponent form from 1e21 on) -/
  largeNumberText : Int → String

/-- Own property `key` of a parsed object (`none` is `undefined`). -/
def lookupKey (key : String) : List (String × Json) → Option Json
  | [] => none
  | (k, v) :: rest => if k = key then some v else lookupKey key rest

/-- `v.key` for a property name that no built-in prototype defines
(`error`, `dependencies`, `task_id`, `task_name`, `deadline`, `description`).
Reading a property of `null` throws. -/
def getProp (E : Engine) (key : String) : Json → Except String (Option Json)
  | .null => .error (E.readOfNull key)
  | .obj kvs => .ok (lookupKey key kvs)
  | _ => .ok none

/-- Truthiness of a value (`none` is `undefined`). -/
def truthy : Option Json → Bool
  | none => false
  | some .null => false
  | some (.bool b) => b
  | some (.num n) => n != 0
  | some (.str s) => s != ""
  | some (.arr _) => true
  | some (.obj _) => true

/-- `Number.isSafeInteger`: between -(2^53 - 1) and 2^53 - 1, the integers that
parse exactly and print as their decimal numeral. -/
def isSafeInteger (n : Int) : Bool :=
  decide (-9007199254740991 ≤ n) && decide (n ≤ 9007199254740991)

/-- `String(x)` for the number a JSON literal with the integer value `n` parses to:
the decimal numeral of a safe integer, the text the engine gives otherwise. -/
def numberText (E : Engine) (n : Int) : String :=
  if isSafeInteger n then toString n else E.largeNumberText n

mutual
/-- `String(v)` for a parsed value: arrays join their elements with a comma, an
object prints as `[object Object]` unless an own `toString` property (never
callable in parsed data) shadows the inherited method, which throws. -/
def jsString (E : Engine) : Json → Except String String
  | .null => .ok "null"
  | .bool b => .ok (if b then "true" else "false")
  | .num n => .ok (numberText E n)
  | .str s => .ok s
  | .arr xs => joinComma E xs
  | .obj kvs =>
    match lookupKey "toString" kvs with
    | some _ => .error E.cannotConvert
    | none => .ok "[object Object]"
/-- `Array.prototype.join` with the default separator: `null` elements print empty. -/
def joinComma (E : Engine) : List Json → Except String String
  | [] => .ok ""
  | [x] => joinElem E x
  | x :: y :: rest =>
    match joinElem E x with
    | .error e => .error e
    | .ok a =>
      match joinComma E (y :: rest) with
      | .error e => .error e
      | .ok b => .ok (a ++ "," ++ b)
/-- One element of a joined array. -/
def joinElem (E : Engine) : Json → Except String String
  | .null => .ok ""
  | .bool b => .ok (if b then "true" else "false")
  | .num n => .ok (numberText E n)
  | .str s => .ok s
  | .arr xs => joinComma E xs
  | .obj kvs =>
    match lookupKey "toString" kvs with
    | some _ => .error E.cannotConvert
    | none => .ok "[object Object]"
end

/-- A template-literal substitution `${v}` (`none` is `undefined`). -/
def interpolate (E : Engine) : Option Json → Except String String
  | none => .ok "undefined"
  | some v => jsString E v

/-- The comparison `v > 0` (`none` is `undefined`, which compares as NaN). -/
def gtZero (E : Engine) : Option Json → Except String Bool
  | none => .ok false
  | some .null => .ok false
  | some (.bool b) => .ok b
  | some (.num n) => .ok (decide (0 < n))
  | some (.str s) => .ok (E.strGtZero s)
  | some (.arr xs) =>
    match joinComma E xs with
    | .error e => .error e
    | .ok s => .ok (E.strGtZero s)
  | some (.obj kvs) =>
    match lookupKey "toString" kvs with
    | some _ => .error E.cannotConvert
    | none => .ok (E.strGtZero "[object Object]")

/-! ## The renderer: `displayTaskPlan` -/

/-- The `<span class="dependency-tag">` element with the given text. -/
def dependencyTag (text : String) : String :=
  "<span class=\"dependency-tag\">" ++ text ++ "</span>"

/-- The callback of `task.dependencies.map`: one tag per dependency, `Task #${dep}`. -/
def depTag (E : Engine) (dep : Json) : Except String String :=
  match jsString E dep with
  | .error e => .error e
  | .ok d => .ok (dependencyTag ("Task #" ++ d))

/-- `Array.prototype.map` with `depTag`: elements in order, the first exception aborts. -/
def mapTags (E : Engine) : List Json → Except String (List String)
  | [] => .ok []
  | d :: ds =>
    match depTag E d with
    | .error e => .error e
    | .ok t =>
      match mapTags E ds with
      | .error e => .error e
      | .ok ts => .ok (t :: ts)

/-- `task.dependencies.length > 0`, for `deps = task.dependencies`.  The length of
a string is positive exactly when the string is not empty. -/
def lengthGtZero (E : Engine) : Option Json → Except String Bool
  | none => .error (E.readOfUndefined "length")
  | some .null => .error (E.readOfNull "length")
  | some (.bool _) => .ok false
  | some (.num _) => .ok false
  | some (.str s) => .ok (decide (0 < s.length))
  | some (.arr xs) => .ok (decide (0 < xs.length))
  | some (.obj kvs) => gtZero E (lookupKey "length" kvs)

/-- `task.dependencies.map(dep => ...).join('')`: only an array has a `map` method. -/
def mapJoin (E : Engine) : Option Json → Except String String
  | some (.arr xs) =>
    match mapTags E xs with
    | .error e => .error e
    | .ok tags => .ok (String.join tags)
  | _ => .error (E.notAFunction "task.dependencies.map")

/-- The constant `dependencyHtml` of the loop body (lines 71 to 73). -/
def dependencyHtml (E : Engine) (task : Json) : Except String String :=
  match getProp E "dependencies" task with
  | .error e => .error e
  | .ok deps =>
    match lengthGtZero E deps with
    | .error e => .error e
    | .ok true =>
      match mapJoin E deps with
      | .error e => .error e
      | .ok tags => .ok ("Dependencies: " ++ tags)
    | .ok false => .ok ("Dependencies: " ++ dependencyTag "None")

/-- The template literal assigned to `taskCard.innerHTML`, from its five
substitutions already converted to strings. -/
def cardTemplate (taskId taskName deadline depHtml description : String) : String :=
  "\n                <h3>[Task #" ++ taskId ++ "] " ++ taskName ++ "</h3>" ++
  "\n                <p><strong>Deadline:</strong> " ++ deadline ++ "</p>" ++
  "\n                <p>" ++ depHtml ++ "</p>" ++
  "\n                <p><strong>Description:</strong> " ++ description ++ "</p>" ++
  "\n            "

/-- `task.key` once `task.dependencies` has been read without an exception. -/
def field (E : Engine) (key : String) (task : Json) : Except String String :=
  match getProp E key task with
  | .error e => .error e
  | .ok v => interpolate E v

/-- The markup of one card: `dependencyHtml` first, then the substitutions of the
template from left to right. -/
def cardHtml (E : Engine) (task : Json) : Except String String :=
  match dependencyHtml E task with
  | .error e => .error e
  | .ok depHtml =>
    match field E "task_id" task with
    | .error e => .error e
    | .ok taskId =>
      match field E "task_name" task with
      | .error e => .error e
      | .ok taskName =>
        match field E "deadline" task with
        | .error e => .error e
        | .ok deadline =>
          match field E "description" task with
          | .error e => .error e
          | .ok description => .ok (cardTemplate taskId taskName deadline depHtml description)

/-- A card element.  `delayIndex` stands for `style.animationDelay`, which is the
text of the floating-point product `index * 0.1` followed by `s`. -/
structure Card where
  className : String
  delayIndex : Nat
  innerHTML : String
deriving DecidableEq, Repr

/-- The loop body up to `taskList.appendChild`: the card of `task` at `index`. -/
def taskCard (E : Engine) (index : Nat) (task : Json) : Except String Card :=
  match cardHtml E task with
  | .error e => .error e
  | .ok html => .ok { className := "task-card", delayIndex := index, innerHTML := html }

/-! ## The page -/

/-- One call of `fetch`; `body` is the value handed to `JSON.stringify`. -/
structure Request where
  url : String
  method : String
  headers : List (String × String)
  body : Json

/-- Observable state of the page. -/
structure Dom where
  /-- `goalInput.value` -/
  goalValue : String
  /-- `planButton.disabled` -/
  buttonDisabled : Bool
  /-- whether `loadingSpinner` carries the class `hidden` -/
  loadingHidden : Bool
  /-- whether `planOutput` carries the class `hidden` -/
  outputHidden : Bool
  /-- whether `errorMessage` carries the class `hidden` -/
  errorHidden : Bool
  /-- `errorMessage.textContent` -/
  errorText : String
  /-- children of `taskList` -/
  taskList : List Card
  /-- calls of `fetch` so far, oldest first -/
  requests : List Request
  /-- messages of the errors passed to `console.error` so far -/
  console : List String

/-- `displayError(message)`. -/
def displayError (message : String) (s : Dom) : Dom :=
  { s with errorText := "Error: " ++ message, errorHidden := false }

/-- `tasks.forEach(...)` from position `index` on: each card is appended as soon as
it is built; an exception leaves the loop with the cards appended so far. -/
def forEachTask (E : Engine) : Nat → List Json → Dom → Dom × Option String
  | _, [], s => (s, none)
  | index, task :: rest, s =>
    match taskCard E index task with
    | .error e => (s, some e)
    | .ok card => forEachTask E (index + 1) rest { s with taskList := s.taskList ++ [card] }

/-- `displayTaskPlan(tasks)`: the state it leaves and the message of the exception
it throws, if any. -/
def displayTaskPlan (E : Engine) (tasks : List Json) (s : Dom) : Dom × Option String :=
  forEachTask E 0 tasks { s with outputHidden := false }

/-! ## The controller: `generateTaskPlan` -/

/-- White space and line terminators, the characters `String.prototype.trim` removes. -/
def isJsWhitespace (c : Char) : Bool :=
  c.val = 0x09 || c.val = 0x0A || c.val = 0x0B || c.val = 0x0C || c.val = 0x0D ||
  c.val = 0x20 || c.val = 0xA0 || c.val = 0x1680 ||
  (0x2000 ≤ c.val && c.val ≤ 0x200A) ||
  c.val = 0x2028 || c.val = 0x2029 || c.val = 0x202F || c.val = 0x205F ||
  c.val = 0x3000 || c.val = 0xFEFF

/-- `String.prototype.trim` on the characters of a string. -/
def trimChars (cs : List Char) : List Char :=
  ((cs.dropWhile isJsWhitespace).reverse.dropWhile isJsWhitespace).reverse

/-- `String.prototype.trim`. -/
def jsTrim (s : String) : String :=
  String.mk (trimChars s.data)

/-- The constant `API_BASE_URL`. -/
def API_BASE_URL : String := "http://127.0.0.1:5000/api/generate-plan"

/-- The request `generateTaskPlan` sends for the constant `goal`. -/
def planRequest (goal : String) : Request :=
  { url := API_BASE_URL
    method := "POST"
    headers := [("Content-Type", "application/json")]
    body := .obj [("goal", .str goal)] }

/-- Outcome of the network step: `fetch` rejects with an error of the given
message, or resolves with a status (a 16-bit number) and a body for which `response.json()` either
rejects (`.error`, with the message of the parse error) or yields a value. -/
inductive FetchResult where
  | rejected (message : String) : FetchResult
  | response (status : Nat) (body : Except String Json) : FetchResult

/-- `response.ok`: the status is in the range 200 to 299. -/
def responseOk (status : Nat) : Bool :=
  decide (200 ≤ status) && decide (status ≤ 299)

/-- The message of `new Error(data.error || fallback)`. -/
def serviceMessage (E : Engine) (status : Nat) (data : Json) : Except String String :=
  match getProp E "error" data with
  | .error e => .error e
  | .ok v =>
    if truthy v then interpolate E v
    else .ok ("Server responded with status: " ++ toString status)

/-- `Array.isArray(data)` guarded by `data &&`, giving the elements of an array. -/
def asArray : Json → Option (List Json)
  | .arr xs => some xs
  | _ => none

/-- The `try` block once the request has been issued (lines 29 to 49): the state it
leaves and the message of the exception it throws, if any. -/
def tryBlock (E : Engine) (net : FetchResult) (s : Dom) : Dom × Option String :=
  match net with
  | .rejected message => (s, some message)
  | .response status body =>
    match body with
    | .error message => (s, some message)
    | .ok data =>
      if !responseOk status then
        match serviceMessage E status data with
        | .error e => (s, some e)
        | .ok m => (s, some m)
      else
        match asArray data with
        | some tasks => displayTaskPlan E tasks s
        | none => (s, some "AI returned an unexpected format. Try a different goal.")

/-- The `catch` block (lines 51 to 53), entered when the `try` block threw. -/
def catchBlock (thrown : Option String) (s : Dom) : Dom :=
  match thrown with
  | none => s
  | some message =>
    displayError ("Failed to connect or process: " ++ message)
      { s with console := s.console ++ [message] }

/-- The `finally` block (lines 54 to 57). -/
def finallyBlock (s : Dom) : Dom :=
  { s with loadingHidden := true, buttonDisabled := false }

/-- The statements under `// Reset display` (lines 22 to 26). -/
def resetDisplay (s : Dom) : Dom :=
  { s with taskList := [], outputHidden := true, errorHidden := true,
           loadingHidden := false, buttonDisabled := true }

/-- The call of `fetch` (lines 29 to 35), recorded in the log of requests. -/
def sendRequest (goal : String) (s : Dom) : Dom :=
  { s with requests := s.requests ++ [planRequest goal] }

/-- `generateTaskPlan()` from its call to the settlement of its promise, `net`
being the outcome of the network step if the function reaches it. -/
def generateTaskPlan (E : Engine) (net : FetchResult) (s : Dom) : Dom :=
  let goal := jsTrim s.goalValue
  if goal = "" then
    displayError "Please enter a goal to plan!" s
  else
    let r := tryBlock E net (sendRequest goal (resetDisplay s))
    finallyBlock (catchBlock r.2 r.1)

/-! ## Vocabulary of the statements -/

/-- A task of the shape the service promises. -/
structure Task where
  task_id : Int
  task_name : String
  deadline : String
  description : String
  dependencies : List Int

/-- The parsed value `j` is an object whose five task properties hold the fields
of `t`; the order of the keys is free and further keys may be present. -/
def TaskShape (j : Json) (t : Task) : Prop :=
  ∃ kvs, j = .obj kvs ∧
    lookupKey "task_id" kvs = some (.num t.task_id) ∧
    lookupKey "task_name" kvs = some (.str t.task_name) ∧
    lookupKey "deadline" kvs = some (.str t.deadline) ∧
    lookupKey "description" kvs = some (.str t.description) ∧
    lookupKey "dependencies" kvs = some (.arr (t.dependencies.map Json.num))

/-- The dependency summary of a task with the given dependency ids: the tag `None`,
or one tag `Task #d` for each id in order, `d` printed as JavaScript prints it. -/
def summaryOf (E : Engine) (deps : List Int) : String :=
  "Dependencies: " ++
    (if deps = [] then "<span class=\"dependency-tag\">None</span>"
     else String.join (deps.map (fun d =>
       "<span class=\"dependency-tag\">Task #" ++ numberText E d ++ "</span>")))

/-- The card of a well-formed task at position `index`: the header with id and
name, the deadline, the dependency summary and the description, in the markup of
lines 75 to 80. -/
def Task.card (E : Engine) (t : Task) (index : Nat) : Card :=
  { className := "task-card"
    delayIndex := index
    innerHTML :=
      "\n                <h3>[Task #" ++ numberText E t.task_id ++ "] " ++ t.task_name ++ "</h3>" ++
      "\n                <p><strong>Deadline:</strong> " ++ t.deadline ++ "</p>" ++
      "\n                <p>" ++ summaryOf E t.dependencies ++ "</p>" ++
      "\n                <p><strong>Description:</strong> " ++ t.description ++ "</p>" ++
      "\n            " }

/-- Cards that `tasks.forEach` appends from position `index` on: those of the
tasks that precede the first task whose card throws. -/
def cardsBuilt (E : Engine) : Nat → List Json → List Card
  | _, [] => []
  | index, task :: rest =>
    match taskCard E index task with
    | .error _ => []
    | .ok card => card :: cardsBuilt E (index + 1) rest

/-- Cards that a request with outcome `net` leaves in the list container. -/
def newCards (E : Engine) : FetchResult → List Card
  | .response status (.ok (.arr tasks)) => if responseOk status then cardsBuilt E 0 tasks else []
  | _ => []

/-- Whether the characters `needle` open the characters `text`. -/
def opensWith : List Char → List Char → Bool
  | [], _ => true
  | _ :: _, [] => false
  | a :: needle, b :: text => a == b && opensWith needle text

/-- Whether the characters `needle` occur in the characters `text`. -/
def occursIn (needle : List Char) : List Char → Bool
  | [] => opensWith needle []
  | b :: text => opensWith needle (b :: text) || occursIn needle text

/-- Whether the string `text` contains the string `needle`. -/
def containsText (needle text : String) : Bool :=
  occursIn needle.data text.data

/-- Number of visible panels among Loading, Result and Error. -/
def visiblePanels (s : Dom) : Nat :=
  (if s.loadingHidden then 0 else 1) + (if s.outputHidden then 0 else 1) +
  (if s.errorHidden then 0 else 1)

/-- Modelled from the spec: the page as the markup presents it before the first
interaction (the markup is not part of the script).  None of the panels Loading,
Result, Error is visible and the button is enabled. -/
def Idle (s : Dom) : Prop :=
  s.loadingHidden = true ∧ s.outputHidden = true ∧ s.errorHidden = true ∧
  s.buttonDisabled = false

/-- States the page can be in when `generateTaskPlan` is called: the idle page,
after the user edits the goal, after a completed call. -/
inductive Reachable (E : Engine) : Dom → Prop where
  | idle (s : Dom) : Idle s → Reachable E s
  | edit (s : Dom) (text : String) : Reachable E s → Reachable E { s with goalValue := text }
  | call (s : Dom) (net : FetchResult) : Reachable E s → Reachable E (generateTaskPlan E net s)

/-! ## Sample data -/

/-- Texts of one engine.  The sample data hold safe integers only, so the text of a
larger number is never consulted. -/
def sampleEngine : Engine :=
  { readOfNull := fun p => "Cannot read properties of null (reading " ++ p ++ ")"
    readOfUndefined := fun p => "Cannot read properties of undefined (reading " ++ p ++ ")"
    notAFunction := fun f => f ++ " is not a function"
    cannotConvert := "Cannot convert object to primitive value"
    strGtZero := fun _ => false
    largeNumberText := fun _ => "1e+21" }

/-- The idle page with the given text in the goal input. -/
def idlePage (text : String) : Dom :=
  { goalValue := text, buttonDisabled := false, loadingHidden := true, outputHidden := true,
    errorHidden := true, errorText := "", taskList := [], requests := [], console := [] }

/-- A card left in the list container by an earlier request. -/
def oldCard : Card :=
  { className := "task-card", delayIndex := 0, innerHTML := "<h3>[Task #9] earlier</h3>" }

/-- A page showing the result of an earlier request. -/
def resultPage (text : String) : Dom :=
  { idlePage text with outputHidden := false, taskList := [oldCard] }

/-- A page on which a request is in flight. -/
def loadingPage (text : String) : Dom :=
  { idlePage text with loadingHidden := false, buttonDisabled := true }

/-- A task without dependencies. -/
def taskA : Task :=
  { task_id := 1, task_name := "Outline", deadline := "Day 1", description := "Write the outline",
    dependencies := [] }

/-- A task with the dependencies 2 and 5. -/
def taskB : Task :=
  { task_id := 7, task_name := "Review", deadline := "Day 3", description := "Review the draft",
    dependencies := [2, 5] }

/-- The parsed form of `taskA`. -/
def jsonA : Json :=
  .obj [("task_id", .num 1), ("task_name", .str "Outline"), ("deadline", .str "Day 1"),
        ("description", .str "Write the outline"), ("dependencies", .arr [])]

/-- The parsed form of `taskB`, with its keys in another order. -/
def jsonB : Json :=
  .obj [("dependencies", .arr [.num 2, .num 5]), ("task_id", .num 7),
        ("task_name", .str "Review"), ("deadline", .str "Day 3"),
        ("description", .str "Review the draft")]

/-! ## Lemmas on the controller -/

theorem trimChars_of_blank (cs : List Char) (h : ∀ c ∈ cs, isJsWhitespace c = true) :
    trimChars cs = [] := by
  have h1 : cs.dropWhile isJsWhitespace = [] := List.dropWhile_eq_nil_iff.mpr h
  simp [trimChars, h1]

theorem jsTrim_of_blank (text : String) (h : ∀ c ∈ text.data, isJsWhitespace c = true) :
    jsTrim text = "" := by
  simp [jsTrim, trimChars_of_blank text.data h]

theorem generateTaskPlan_of_blank (E : Engine) (net : FetchResult) (s : Dom)
    (h : jsTrim s.goalValue = "") :
    generateTaskPlan E net s = displayError "Please enter a goal to plan!" s := by
  simp [generateTaskPlan, h]

theorem generateTaskPlan_of_goal (E : Engine) (net : FetchResult) (s : Dom)
    (h : jsTrim s.goalValue ≠ "") :
    generateTaskPlan E net s =
      finallyBlock (catchBlock
        (tryBlock E net (sendRequest (jsTrim s.goalValue) (resetDisplay s))).2
        (tryBlock E net (sendRequest (jsTrim s.goalValue) (resetDisplay s))).1) := by
  simp [generateTaskPlan, h]

theorem forEachTask_fst (E : Engine) (tasks : List Json) :
    ∀ (index : Nat) (s : Dom),
      (forEachTask E index tasks s).1 =
        { s with taskList := s.taskList ++ cardsBuilt E index tasks } := by
  induction tasks with
  | nil => intro index s; simp [forEachTask, cardsBuilt]
  | cons task rest ih =>
    intro index s
    cases hc : taskCard E index task with
    | error e => simp [forEachTask, cardsBuilt, hc]
    | ok card => simp [forEachTask, cardsBuilt, hc, ih]

theorem displayTaskPlan_fst (E : Engine) (tasks : List Json) (s : Dom) :
    (displayTaskPlan E tasks s).1 =
      { s with outputHidden := false, taskList := s.taskList ++ cardsBuilt E 0 tasks } := by
  simp [displayTaskPlan, forEachTask_fst]

/-- What the `try` block leaves: the panels, the button, the log of requests and the
error text are untouched, except that a rendered body reveals the Result panel. -/
theorem tryBlock_fst (E : Engine) (net : FetchResult) (s : Dom) :
    (tryBlock E net s).1 =
      { s with
        outputHidden := (match net with
          | .response status (.ok (.arr _)) => if responseOk status then false else s.outputHidden
          | _ => s.outputHidden)
        taskList := s.taskList ++ newCards E net } := by
  cases net with
  | rejected message => simp [tryBlock, newCards]
  | response status body =>
    cases body with
    | error message => simp [tryBlock, newCards]
    | ok data =>
      by_cases hok : responseOk status = true
      · cases data <;> simp [tryBlock, newCards, hok, asArray, displayTaskPlan_fst]
      · have hok2 : responseOk status = false := by simpa using hok
        cases hm : serviceMessage E status data <;>
          cases data <;> simp [tryBlock, newCards, hok2, hm]

theorem catchBlock_frame (thrown : Option String) (s : Dom) :
    (catchBlock thrown s).taskList = s.taskList ∧
    (catchBlock thrown s).requests = s.requests ∧
    (catchBlock thrown s).outputHidden = s.outputHidden ∧
    (catchBlock thrown s).loadingHidden = s.loadingHidden ∧
    (catchBlock thrown s).buttonDisabled = s.buttonDisabled := by
  cases thrown <;> simp [catchBlock, displayError]

/-! ## The validation error -/

/-- C1: when the goal input is empty or holds only white space, `generateTaskPlan`
issues no request (the log of `fetch` calls is unchanged), the text of the error
element becomes exactly "Error: Please enter a goal to plan!" and the element is
made visible. -/
theorem blank_goal_is_rejected_locally (E : Engine) (net : FetchResult) (s : Dom)
    (h : ∀ c ∈ s.goalValue.data, isJsWhitespace c = true) :
    (generateTaskPlan E net s).requests = s.requests ∧
    (generateTaskPlan E net s).errorText = "Error: Please enter a goal to plan!" ∧
    (generateTaskPlan E net s).errorHidden = false := by
  rw [generateTaskPlan_of_blank E net s (jsTrim_of_blank s.goalValue h)]
  simp [displayError]

theorem blank_goal_is_rejected_locally_witness :
    (∀ c ∈ (idlePage " \t\n").goalValue.data, isJsWhitespace c = true) ∧
    (generateTaskPlan sampleEngine (.rejected "Failed to fetch") (idlePage " \t\n")).requests
      = (idlePage " \t\n").requests ∧
    (generateTaskPlan sampleEngine (.rejected "Failed to fetch") (idlePage " \t\n")).errorText
      = "Error: Please enter a goal to plan!" ∧
    (generateTaskPlan sampleEngine (.rejected "Failed to fetch") (idlePage " \t\n")).errorHidden
      = false :=
  ⟨by decide,
   blank_goal_is_rejected_locally sampleEngine (.rejected "Failed to fetch") (idlePage " \t\n")
     (by decide)⟩

/-! ## The request -/

/-- C9, as stated, fails: for the input " x " the one request carries the trimmed
goal "x", not the raw text. -/
theorem raw_goal_is_not_sent :
    jsTrim (idlePage " x ").goalValue ≠ "" ∧
    (generateTaskPlan sampleEngine (.rejected "Failed to fetch") (idlePage " x ")).requests
      = [planRequest "x"] ∧
    (planRequest "x").body ≠ Json.obj [("goal", .str (idlePage " x ").goalValue)] := by
  refine ⟨by decide, rfl, ?_⟩
  simp [planRequest, idlePage]

/-- C9, amended: for every goal input that is not empty after trimming,
`generateTaskPlan` issues exactly one request, a POST to the fixed endpoint with the
JSON content type, whose body is the object with the single key `goal` holding the
trimmed input text. -/
theorem one_request_with_trimmed_goal (E : Engine) (net : FetchResult) (s : Dom)
    (h : jsTrim s.goalValue ≠ "") :
    ∃ r, (generateTaskPlan E net s).requests = s.requests ++ [r] ∧
      r.method = "POST" ∧ r.url = API_BASE_URL ∧
      r.headers = [("Content-Type", "application/json")] ∧
      r.body = Json.obj [("goal", .str (jsTrim s.goalValue))] := by
  refine ⟨planRequest (jsTrim s.goalValue), ?_, rfl, rfl, rfl, rfl⟩
  rw [generateTaskPlan_of_goal E net s h]
  simp [finallyBlock, (catchBlock_frame _ _).2.1, tryBlock_fst, sendRequest, resetDisplay]

theorem one_request_with_trimmed_goal_witness :
    jsTrim (resultPage " plan a trip ").goalValue ≠ "" ∧
    ∃ r, (generateTaskPlan sampleEngine (.response 200 (.ok (.arr []))) (resultPage " plan a trip ")).requests
        = (resultPage " plan a trip ").requests ++ [r] ∧
      r.method = "POST" ∧ r.url = API_BASE_URL ∧
      r.headers = [("Content-Type", "application/json")] ∧
      r.body = Json.obj [("goal", .str (jsTrim (resultPage " plan a trip ").goalValue))] :=
  ⟨by decide,
   one_request_with_trimmed_goal sampleEngine (.response 200 (.ok (.arr [])))
     (resultPage " plan a trip ") (by decide)⟩

/-! ## Error responses -/

theorem settled_error_text (E : Engine) (net : FetchResult) (s : Dom) (m : String)
    (h : jsTrim s.goalValue ≠ "")
    (hthrown : (tryBlock E net (sendRequest (jsTrim s.goalValue) (resetDisplay s))).2 = some m) :
    (generateTaskPlan E net s).errorText = "Error: Failed to connect or process: " ++ m ∧
    (generateTaskPlan E net s).errorHidden = false := by
  rw [generateTaskPlan_of_goal E net s h, hthrown]
  simp [finallyBlock, catchBlock, displayError, ← String.append_assoc]

theorem settled_panels (E : Engine) (net : FetchResult) (s : Dom)
    (h : jsTrim s.goalValue ≠ "") :
    (generateTaskPlan E net s).taskList = newCards E net ∧
    (generateTaskPlan E net s).outputHidden =
      (match net with
        | .response status (.ok (.arr _)) => if responseOk status then false else true
        | _ => true) := by
  rw [generateTaskPlan_of_goal E net s h]
  refine ⟨?_, ?_⟩
  · simp [finallyBlock, (catchBlock_frame _ _).1, tryBlock_fst, sendRequest, resetDisplay]
  · simp only [finallyBlock, (catchBlock_frame _ _).2.2.1, tryBlock_fst, sendRequest,
      resetDisplay]

/-- C8: for a goal that passes the validation and every 2xx response whose parsed
body is no array (object, number, string, boolean or null), no card is in the list
container after settlement, the Result panel is hidden, and the text of the error
element is exactly "Error: Failed to connect or process: AI returned an unexpected
format. Try a different goal." (and the element is visible). -/
theorem non_array_body_is_format_error (E : Engine) (s : Dom) (status : Nat) (data : Json)
    (h : jsTrim s.goalValue ≠ "") (hok : responseOk status = true)
    (hdata : ∀ xs, data ≠ .arr xs) :
    (generateTaskPlan E (.response status (.ok data)) s).taskList = [] ∧
    (generateTaskPlan E (.response status (.ok data)) s).outputHidden = true ∧
    (generateTaskPlan E (.response status (.ok data)) s).errorText =
      "Error: Failed to connect or process: AI returned an unexpected format. Try a different goal." ∧
    (generateTaskPlan E (.response status (.ok data)) s).errorHidden = false := by
  have hthrown : ∀ t, (tryBlock E (.response status (.ok data)) t).2 =
      some "AI returned an unexpected format. Try a different goal." := by
    intro t
    cases data with
    | arr xs => exact absurd rfl (hdata xs)
    | _ => simp [tryBlock, hok, asArray]
  have ht := settled_error_text E _ s _ h (hthrown _)
  have hp := settled_panels E (.response status (.ok data)) s h
  refine ⟨?_, ?_, ?_, ht.2⟩
  · rw [hp.1]
    cases data with
    | arr xs => exact absurd rfl (hdata xs)
    | _ => simp [newCards]
  · rw [hp.2]
    cases data with
    | arr xs => exact absurd rfl (hdata xs)
    | _ => simp
  · rw [ht.1]; rfl

theorem non_array_body_is_format_error_witness :
    jsTrim (resultPage "x").goalValue ≠ "" ∧ responseOk 200 = true ∧
    (generateTaskPlan sampleEngine (.response 200 (.ok (.obj [("foo", .str "bar")])))
      (resultPage "x")).taskList = [] ∧
    (generateTaskPlan sampleEngine (.response 200 (.ok (.obj [("foo", .str "bar")])))
      (resultPage "x")).outputHidden = true ∧
    (generateTaskPlan sampleEngine (.response 200 (.ok (.obj [("foo", .str "bar")])))
      (resultPage "x")).errorText =
      "Error: Failed to connect or process: AI returned an unexpected format. Try a different goal." ∧
    (generateTaskPlan sampleEngine (.response 200 (.ok (.obj [("foo", .str "bar")])))
      (resultPage "x")).errorHidden = false :=
  ⟨by decide, by decide,
   non_array_body_is_format_error sampleEngine (resultPage "x") 200 (.obj [("foo", .str "bar")])
     (by decide) (by decide) (by intro xs hx; cases hx)⟩

/-- C6, as stated, fails at the empty message: a 400 response whose body has the
`error` field "" shows the generic status text, which is not "Error: Failed to
connect or process: " followed by the empty string. -/
theorem empty_error_field_is_ignored :
    jsTrim (idlePage "x").goalValue ≠ "" ∧ responseOk 400 = false ∧
    (generateTaskPlan sampleEngine (.response 400 (.ok (.obj [("error", .str "")])))
      (idlePage "x")).errorText
      = "Error: Failed to connect or process: Server responded with status: 400" ∧
    (generateTaskPlan sampleEngine (.response 400 (.ok (.obj [("error", .str "")])))
      (idlePage "x")).errorText
      ≠ "Error: Failed to connect or process: " ++ "" := by
  refine ⟨by decide, by decide, rfl, by decide⟩

/-- C6, amended: for a goal that passes the validation and every non-2xx response
whose parsed body is an object with an `error` field holding a string m that is not
empty, the text of the error element after settlement is exactly "Error: Failed to
connect or process: " followed by m (and the element is visible). -/
theorem service_error_message_is_shown (E : Engine) (s : Dom) (status : Nat)
    (kvs : List (String × Json)) (m : String)
    (h : jsTrim s.goalValue ≠ "") (hok : responseOk status = false)
    (herr : lookupKey "error" kvs = some (.str m)) (hm : m ≠ "") :
    (generateTaskPlan E (.response status (.ok (.obj kvs))) s).errorText =
      "Error: Failed to connect or process: " ++ m ∧
    (generateTaskPlan E (.response status (.ok (.obj kvs))) s).errorHidden = false := by
  apply settled_error_text E _ s m h
  simp [tryBlock, hok, serviceMessage, getProp, herr, truthy, hm, interpolate, jsString]

theorem service_error_message_is_shown_witness :
    jsTrim (idlePage "x").goalValue ≠ "" ∧ responseOk 400 = false ∧
    lookupKey "error" [("error", Json.str "bad goal")] = some (.str "bad goal") ∧
    "bad goal" ≠ "" ∧
    (generateTaskPlan sampleEngine (.response 400 (.ok (.obj [("error", .str "bad goal")])))
      (idlePage "x")).errorText = "Error: Failed to connect or process: " ++ "bad goal" ∧
    (generateTaskPlan sampleEngine (.response 400 (.ok (.obj [("error", .str "bad goal")])))
      (idlePage "x")).errorHidden = false :=
  ⟨by decide, by decide, rfl, by decide,
   service_error_message_is_shown sampleEngine (idlePage "x") 400
     [("error", .str "bad goal")] "bad goal" (by decide) (by decide) rfl (by decide)⟩

/-- C7, as stated, fails: a 500 response whose body is not valid JSON shows the
message of the parse error, and a 500 response whose body is JSON null shows the
message of the exception raised by reading `error` of null; neither text contains
"Server responded with status: 500". -/
theorem status_text_lost_without_object_body :
    jsTrim (idlePage "x").goalValue ≠ "" ∧ responseOk 500 = false ∧
    (generateTaskPlan sampleEngine (.response 500 (.error "Unexpected end of JSON input"))
      (idlePage "x")).errorText
      = "Error: Failed to connect or process: Unexpected end of JSON input" ∧
    containsText "Server responded with status: 500"
        (generateTaskPlan sampleEngine (.response 500 (.error "Unexpected end of JSON input"))
          (idlePage "x")).errorText = false ∧
    (generateTaskPlan sampleEngine (.response 500 (.ok .null)) (idlePage "x")).errorText
      = "Error: Failed to connect or process: Cannot read properties of null (reading error)" ∧
    containsText "Server responded with status: 500"
        (generateTaskPlan sampleEngine (.response 500 (.ok .null)) (idlePage "x")).errorText
      = false := by
  refine ⟨by decide, by decide, rfl, rfl, rfl, rfl⟩

/-- C7, amended: for a goal that passes the validation, when the status c is not
2xx and the parsed body is not null and has no `error` property or a falsy one, the
text of the error element after settlement is exactly "Error: Failed to connect or
process: Server responded with status: c"; when the body is not valid JSON, the
text is "Error: Failed to connect or process: " followed by the message of the
parse error, whatever the status. -/
theorem generic_status_message (E : Engine) (s : Dom) (status : Nat)
    (h : jsTrim s.goalValue ≠ "") :
    (responseOk status = false →
      ∀ data : Json, data ≠ .null →
      (∀ kvs, data = .obj kvs → truthy (lookupKey "error" kvs) = false) →
      (generateTaskPlan E (.response status (.ok data)) s).errorText =
        "Error: Failed to connect or process: Server responded with status: " ++ toString status ∧
      (generateTaskPlan E (.response status (.ok data)) s).errorHidden = false) ∧
    (∀ parseError : String,
      (generateTaskPlan E (.response status (.error parseError)) s).errorText =
        "Error: Failed to connect or process: " ++ parseError ∧
      (generateTaskPlan E (.response status (.error parseError)) s).errorHidden = false) := by
  constructor
  · intro hok data hnull herr
    have := settled_error_text E (.response status (.ok data)) s
      ("Server responded with status: " ++ toString status) h
      (by
        cases data with
        | null => exact absurd rfl hnull
        | obj kvs => simp [tryBlock, hok, serviceMessage, getProp, herr kvs rfl]
        | _ => simp [tryBlock, hok, serviceMessage, getProp, truthy])
    simpa [String.append_assoc] using this
  · intro parseError
    exact settled_error_text E _ s parseError h (by simp [tryBlock])

theorem generic_status_message_witness :
    (jsTrim (idlePage "x").goalValue ≠ "" ∧ responseOk 503 = false ∧
      (generateTaskPlan sampleEngine (.response 503 (.ok (.obj [("detail", .str "down")])))
        (idlePage "x")).errorText
        = "Error: Failed to connect or process: Server responded with status: 503") ∧
    (responseOk 500 = false ∧
      (generateTaskPlan sampleEngine (.response 500 (.error "Unexpected end of JSON input"))
        (idlePage "x")).errorText
        = "Error: Failed to connect or process: " ++ "Unexpected end of JSON input") ∧
    (responseOk 200 = true ∧
      (generateTaskPlan sampleEngine (.response 200 (.error "Unexpected end of JSON input"))
        (idlePage "x")).errorText
        = "Error: Failed to connect or process: " ++ "Unexpected end of JSON input") :=
  ⟨⟨by decide, by decide,
    ((generic_status_message sampleEngine (idlePage "x") 503 (by decide)).1 (by decide)
      (.obj [("detail", .str "down")]) (by intro hx; cases hx)
      (by intro kvs hk; cases hk; rfl)).1⟩,
   ⟨by decide,
    ((generic_status_message sampleEngine (idlePage "x") 500 (by decide)).2
      "Unexpected end of JSON input").1⟩,
   ⟨by decide,
    ((generic_status_message sampleEngine (idlePage "x") 200 (by decide)).2
      "Unexpected end of JSON input").1⟩⟩

/-! ## Rendering -/

theorem dependencyTag_task (d : String) :
    dependencyTag ("Task #" ++ d) = "<span class=\"dependency-tag\">Task #" ++ d ++ "</span>" := by
  simp [dependencyTag, ← String.append_assoc]

theorem numberText_of_safe (E : Engine) (n : Int) (h : isSafeInteger n = true) :
    numberText E n = toString n := by
  simp [numberText, h]

theorem mapTags_of_ids (E : Engine) (deps : List Int) :
    mapTags E (deps.map Json.num) =
      .ok (deps.map (fun d =>
        "<span class=\"dependency-tag\">Task #" ++ numberText E d ++ "</span>")) := by
  induction deps with
  | nil => rfl
  | cons d ds ih => simp [mapTags, depTag, jsString, ih, dependencyTag_task]

theorem dependencyHtml_of_ids (E : Engine) (j : Json) (deps : List Int)
    (h : getProp E "dependencies" j = .ok (some (.arr (deps.map Json.num)))) :
    dependencyHtml E j = .ok (summaryOf E deps) := by
  cases deps with
  | nil => simp [dependencyHtml, h, lengthGtZero, summaryOf, dependencyTag]
  | cons d ds =>
    simp only [dependencyHtml, h, lengthGtZero, mapJoin, mapTags_of_ids]
    simp [summaryOf]

theorem taskCard_of_shape (E : Engine) (index : Nat) (j : Json) (t : Task)
    (h : TaskShape j t) : taskCard E index j = .ok (t.card E index) := by
  obtain ⟨kvs, rfl, hid, hname, hdeadline, hdesc, hdeps⟩ := h
  have hd : dependencyHtml E (.obj kvs) = .ok (summaryOf E t.dependencies) :=
    dependencyHtml_of_ids E _ _ (by simp [getProp, hdeps])
  simp [taskCard, cardHtml, hd, field, getProp, hid, hname, hdeadline, hdesc, interpolate,
    jsString, Task.card, cardTemplate]

theorem cardsBuilt_of_shapes (E : Engine) (jsons : List Json) (tasks : List Task)
    (h : List.Forall₂ TaskShape jsons tasks) :
    ∀ index, (cardsBuilt E index jsons).length = jsons.length ∧
      (∀ (k : Nat) (j : Json), jsons[k]? = some j →
        ∃ c, (cardsBuilt E index jsons)[k]? = some c ∧ taskCard E (index + k) j = .ok c) ∧
      (∀ (k : Nat) (t : Task), tasks[k]? = some t →
        (cardsBuilt E index jsons)[k]? = some (t.card E (index + k))) := by
  induction h with
  | nil => intro index; simp [cardsBuilt]
  | @cons j t js ts hjt _ ih =>
    intro index
    have hc := taskCard_of_shape E index j t hjt
    obtain ⟨hlen, hsrc, hexp⟩ := ih (index + 1)
    refine ⟨by simp [cardsBuilt, hc, hlen], ?_, ?_⟩
    · intro k j2 hk
      cases k with
      | zero =>
        simp at hk
        subst hk
        exact ⟨t.card E index, by simp [cardsBuilt, hc], by simpa using hc⟩
      | succ k =>
        simp at hk
        obtain ⟨c, h1, h2⟩ := hsrc k j2 hk
        refine ⟨c, by simpa [cardsBuilt, hc] using h1, ?_⟩
        have he : index + (k + 1) = index + 1 + k := by omega
        rw [he]; exact h2
    · intro k t2 hk
      cases k with
      | zero =>
        simp at hk
        subst hk
        simp [cardsBuilt, hc]
      | succ k =>
        simp at hk
        have he : index + (k + 1) = index + 1 + k := by omega
        rw [he]
        simpa [cardsBuilt, hc] using hexp k t2 hk

theorem shape_jsonA : TaskShape jsonA taskA :=
  ⟨_, rfl, rfl, rfl, rfl, rfl, rfl⟩

theorem shape_jsonB : TaskShape jsonB taskB :=
  ⟨_, rfl, rfl, rfl, rfl, rfl, rfl⟩

/-- C4: for every rendered task whose `dependencies` is an array of ids, the
dependency summary is, when the array is empty, the single tag with the text
"None", and otherwise one tag per id d with the text "Task #d", in the order of
the array, where d is printed as JavaScript prints the number: as its decimal
numeral for every safe integer.  The markup of every card built for the task
carries this summary in its third paragraph. -/
theorem dependency_summary_tags (E : Engine) (j : Json) (deps : List Int)
    (h : getProp E "dependencies" j = .ok (some (.arr (deps.map Json.num)))) :
    (deps = [] →
      dependencyHtml E j = .ok "Dependencies: <span class=\"dependency-tag\">None</span>") ∧
    (deps ≠ [] → dependencyHtml E j =
      .ok ("Dependencies: " ++ String.join (deps.map (fun d =>
        "<span class=\"dependency-tag\">Task #" ++ numberText E d ++ "</span>")))) ∧
    (deps ≠ [] → (∀ d ∈ deps, isSafeInteger d = true) → dependencyHtml E j =
      .ok ("Dependencies: " ++ String.join (deps.map (fun d =>
        "<span class=\"dependency-tag\">Task #" ++ toString d ++ "</span>")))) ∧
    (∀ index card, taskCard E index j = .ok card →
      ∃ taskId taskName deadline description summary,
        dependencyHtml E j = .ok summary ∧
        card.innerHTML =
          "\n                <h3>[Task #" ++ taskId ++ "] " ++ taskName ++ "</h3>" ++
          "\n                <p><strong>Deadline:</strong> " ++ deadline ++ "</p>" ++
          "\n                <p>" ++ summary ++ "</p>" ++
          "\n                <p><strong>Description:</strong> " ++ description ++ "</p>" ++
          "\n            ") := by
  have hd := dependencyHtml_of_ids E j deps h
  refine ⟨?_, ?_, ?_, ?_⟩
  · intro h0; rw [hd]; simp [summaryOf, h0]
  · intro h0; rw [hd]; simp [summaryOf, h0]
  · intro h0 hsafe
    rw [hd]
    have hmap : deps.map (fun d =>
          "<span class=\"dependency-tag\">Task #" ++ numberText E d ++ "</span>")
        = deps.map (fun d => "<span class=\"dependency-tag\">Task #" ++ toString d ++ "</span>") :=
      List.map_congr_left (fun d hmem => by rw [numberText_of_safe E d (hsafe d hmem)])
    simp [summaryOf, h0, hmap]
  · intro index card hcard
    simp only [taskCard, cardHtml, hd] at hcard
    cases h1 : field E "task_id" j with
    | error e => simp [h1] at hcard
    | ok a =>
      cases h2 : field E "task_name" j with
      | error e => simp [h1, h2] at hcard
      | ok b =>
        cases h3 : field E "deadline" j with
        | error e => simp [h1, h2, h3] at hcard
        | ok c =>
          cases h4 : field E "description" j with
          | error e => simp [h1, h2, h3, h4] at hcard
          | ok d =>
            simp [h1, h2, h3, h4] at hcard
            exact ⟨a, b, c, d, _, hd, by rw [← hcard]; rfl⟩

theorem dependency_summary_tags_witness :
    (getProp sampleEngine "dependencies" jsonB = .ok (some (.arr ([2, 5].map Json.num))) ∧
      ([2, 5] : List Int) ≠ [] ∧ (∀ d ∈ ([2, 5] : List Int), isSafeInteger d = true) ∧
      dependencyHtml sampleEngine jsonB =
        .ok ("Dependencies: " ++ String.join (([2, 5] : List Int).map (fun d =>
          "<span class=\"dependency-tag\">Task #" ++ toString d ++ "</span>"))) ∧
      dependencyHtml sampleEngine jsonB =
        .ok "Dependencies: <span class=\"dependency-tag\">Task #2</span><span class=\"dependency-tag\">Task #5</span>") ∧
    (getProp sampleEngine "dependencies" jsonA = .ok (some (.arr (([] : List Int).map Json.num))) ∧
      dependencyHtml sampleEngine jsonA =
        .ok "Dependencies: <span class=\"dependency-tag\">None</span>") :=
  ⟨⟨rfl, by decide, by decide,
    (dependency_summary_tags sampleEngine jsonB [2, 5] rfl).2.2.1 (by decide) (by decide), rfl⟩,
   ⟨rfl, (dependency_summary_tags sampleEngine jsonA [] rfl).1 rfl⟩⟩

/-! ## Settled state of a request -/

theorem tryBlock_snd_isSome (E : Engine) (net : FetchResult) (s : Dom) :
    (tryBlock E net s).2.isSome =
      (match net with
        | .response status (.ok (.arr tasks)) =>
          if responseOk status then (displayTaskPlan E tasks s).2.isSome else true
        | _ => true) := by
  cases net with
  | rejected message => simp [tryBlock]
  | response status body =>
    cases body with
    | error message => simp [tryBlock]
    | ok data =>
      by_cases hok : responseOk status = true
      · cases data <;> simp [tryBlock, hok, asArray]
      · have hok2 : responseOk status = false := by simpa using hok
        cases hm : serviceMessage E status data <;>
          cases data <;> simp [tryBlock, hok2, hm]

theorem settled_errorHidden (E : Engine) (net : FetchResult) (s : Dom)
    (h : jsTrim s.goalValue ≠ "") :
    (generateTaskPlan E net s).errorHidden =
      !(tryBlock E net (sendRequest (jsTrim s.goalValue) (resetDisplay s))).2.isSome := by
  rw [generateTaskPlan_of_goal E net s h]
  cases ht : (tryBlock E net (sendRequest (jsTrim s.goalValue) (resetDisplay s))).2 with
  | none =>
    simp [finallyBlock, catchBlock, tryBlock_fst, sendRequest, resetDisplay]
  | some m => simp [finallyBlock, catchBlock, displayError]

theorem settled_cleanup (E : Engine) (net : FetchResult) (s : Dom)
    (h : jsTrim s.goalValue ≠ "") :
    (generateTaskPlan E net s).loadingHidden = true ∧
    (generateTaskPlan E net s).buttonDisabled = false := by
  rw [generateTaskPlan_of_goal E net s h]
  simp [finallyBlock]

theorem forEachTask_snd_of_shapes (E : Engine) (jsons : List Json) (tasks : List Task)
    (h : List.Forall₂ TaskShape jsons tasks) :
    ∀ (index : Nat) (s : Dom), (forEachTask E index jsons s).2 = none := by
  induction h with
  | nil => intro index s; rfl
  | @cons j t js ts hjt _ ih =>
    intro index s
    simp [forEachTask, taskCard_of_shape E index j t hjt, ih]

theorem reachable_is_settled (E : Engine) (s : Dom) (h : Reachable E s) :
    s.loadingHidden = true ∧ s.buttonDisabled = false := by
  induction h with
  | idle s hidle => exact ⟨hidle.1, hidle.2.2.2⟩
  | edit s text _ ih => exact ih
  | call s net _ ih =>
    by_cases hg : jsTrim s.goalValue = ""
    · rw [generateTaskPlan_of_blank E net s hg]
      simpa [displayError] using ih
    · exact settled_cleanup E net s hg

/-! ## The cleanup -/

/-- C2: from every state in which `generateTaskPlan` can be called, that is from
every reachable state, and for every outcome (validation error, transport failure,
malformed body, non-2xx status, 2xx body that is no array, 2xx array, exception
while rendering), the Loading panel is hidden and the button is enabled after
settlement; for a call that passes the validation this holds from every starting
state whatsoever. -/
theorem cleanup_after_every_outcome (E : Engine) (net : FetchResult) (s : Dom) :
    (Reachable E s →
      (generateTaskPlan E net s).loadingHidden = true ∧
      (generateTaskPlan E net s).buttonDisabled = false) ∧
    (jsTrim s.goalValue ≠ "" →
      (generateTaskPlan E net s).loadingHidden = true ∧
      (generateTaskPlan E net s).buttonDisabled = false) := by
  refine ⟨?_, ?_⟩
  · intro hr
    exact reachable_is_settled E _ (.call s net hr)
  · intro h
    rw [generateTaskPlan_of_goal E net s h]
    simp [finallyBlock]

theorem cleanup_after_every_outcome_witness :
    (Reachable sampleEngine (idlePage "  ") ∧ jsTrim (idlePage "  ").goalValue = "" ∧
      (generateTaskPlan sampleEngine (.rejected "Failed to fetch") (idlePage "  ")).loadingHidden
        = true ∧
      (generateTaskPlan sampleEngine (.rejected "Failed to fetch") (idlePage "  ")).buttonDisabled
        = false) ∧
    (Reachable sampleEngine (idlePage "x") ∧
      (generateTaskPlan sampleEngine (.rejected "Failed to fetch") (idlePage "x")).loadingHidden
        = true ∧
      (generateTaskPlan sampleEngine (.rejected "Failed to fetch") (idlePage "x")).buttonDisabled
        = false) ∧
    (jsTrim (loadingPage "x").goalValue ≠ "" ∧
      (generateTaskPlan sampleEngine (.response 200 (.ok (.arr [jsonA, .null])))
        (loadingPage "x")).loadingHidden = true ∧
      (generateTaskPlan sampleEngine (.response 200 (.ok (.arr [jsonA, .null])))
        (loadingPage "x")).buttonDisabled = false) :=
  ⟨⟨.idle _ ⟨rfl, rfl, rfl, rfl⟩, by decide,
    (cleanup_after_every_outcome sampleEngine (.rejected "Failed to fetch")
      (idlePage "  ")).1 (.idle _ ⟨rfl, rfl, rfl, rfl⟩)⟩,
   ⟨.idle _ ⟨rfl, rfl, rfl, rfl⟩,
    (cleanup_after_every_outcome sampleEngine (.rejected "Failed to fetch")
      (idlePage "x")).1 (.idle _ ⟨rfl, rfl, rfl, rfl⟩)⟩,
   ⟨by decide,
    (cleanup_after_every_outcome sampleEngine (.response 200 (.ok (.arr [jsonA, .null])))
      (loadingPage "x")).2 (by decide)⟩⟩

/-- C3: for a goal that passes the validation and every 2xx response whose body is
an array of N well-formed tasks, after settlement the Result panel is visible, the
Loading panel is hidden (and so is the error element), the list container holds
exactly N cards, and the card at each position i is the one the loop body builds
from the task at position i of the response: the markup of lines 75 to 80 filled
with the fields of that task, numbers printed as JavaScript prints them. -/
theorem tasks_are_rendered_in_order (E : Engine) (s : Dom) (status : Nat)
    (jsons : List Json) (tasks : List Task)
    (h : jsTrim s.goalValue ≠ "") (hok : responseOk status = true)
    (hshape : List.Forall₂ TaskShape jsons tasks) :
    (generateTaskPlan E (.response status (.ok (.arr jsons))) s).outputHidden = false ∧
    (generateTaskPlan E (.response status (.ok (.arr jsons))) s).loadingHidden = true ∧
    (generateTaskPlan E (.response status (.ok (.arr jsons))) s).errorHidden = true ∧
    (generateTaskPlan E (.response status (.ok (.arr jsons))) s).taskList.length
      = jsons.length ∧
    (∀ (i : Nat) (j : Json), jsons[i]? = some j →
      ∃ c, (generateTaskPlan E (.response status (.ok (.arr jsons))) s).taskList[i]? = some c ∧
        taskCard E i j = .ok c) ∧
    (∀ (i : Nat) (t : Task), tasks[i]? = some t →
      (generateTaskPlan E (.response status (.ok (.arr jsons))) s).taskList[i]?
        = some (t.card E i)) := by
  have hp := settled_panels E (.response status (.ok (.arr jsons))) s h
  have he := settled_errorHidden E (.response status (.ok (.arr jsons))) s h
  have hc := cardsBuilt_of_shapes E jsons tasks hshape 0
  have hl : (generateTaskPlan E (.response status (.ok (.arr jsons))) s).taskList
      = cardsBuilt E 0 jsons := by rw [hp.1]; simp [newCards, hok]
  refine ⟨?_, (settled_cleanup E _ s h).1, ?_, ?_, ?_, ?_⟩
  · rw [hp.2]; simp [hok]
  · rw [he, tryBlock_snd_isSome]
    simp [hok, displayTaskPlan, forEachTask_snd_of_shapes E jsons tasks hshape]
  · rw [hl]; exact hc.1
  · intro i j hi
    rw [hl]
    simpa using hc.2.1 i j hi
  · intro i t hi
    rw [hl]
    simpa using hc.2.2 i t hi

set_option maxRecDepth 10000 in
theorem tasks_are_rendered_in_order_witness :
    jsTrim (resultPage "x").goalValue ≠ "" ∧ responseOk 200 = true ∧
    List.Forall₂ TaskShape [jsonA, jsonB] [taskA, taskB] ∧
    (generateTaskPlan sampleEngine (.response 200 (.ok (.arr [jsonA, jsonB])))
      (resultPage "x")).taskList.length = [jsonA, jsonB].length ∧
    (generateTaskPlan sampleEngine (.response 200 (.ok (.arr [jsonA, jsonB])))
      (resultPage "x")).taskList[1]? = some (taskB.card sampleEngine 1) ∧
    (taskB.card sampleEngine 1).innerHTML =
      "\n                <h3>[Task #7] Review</h3>" ++
      "\n                <p><strong>Deadline:</strong> Day 3</p>" ++
      "\n                <p>Dependencies: <span class=\"dependency-tag\">Task #2</span>" ++
      "<span class=\"dependency-tag\">Task #5</span></p>" ++
      "\n                <p><strong>Description:</strong> Review the draft</p>" ++
      "\n            " :=
  ⟨by decide, by decide,
   .cons shape_jsonA (.cons shape_jsonB .nil),
   (tasks_are_rendered_in_order sampleEngine (resultPage "x") 200 [jsonA, jsonB] [taskA, taskB]
     (by decide) (by decide) (.cons shape_jsonA (.cons shape_jsonB .nil))).2.2.2.1,
   (tasks_are_rendered_in_order sampleEngine (resultPage "x") 200 [jsonA, jsonB] [taskA, taskB]
     (by decide) (by decide) (.cons shape_jsonA (.cons shape_jsonB .nil))).2.2.2.2.2 1 taskB rfl,
   rfl⟩

/-! ## Replacement of the task list -/

/-- C10, as stated, fails: a 2xx array whose second element is null ends in an
error (the error element is shown, with the message of the exception), yet the
card of the first task stays in the list container. -/
theorem failed_rendering_keeps_cards :
    jsTrim (resultPage "x").goalValue ≠ "" ∧
    (generateTaskPlan sampleEngine (.response 200 (.ok (.arr [jsonA, .null])))
      (resultPage "x")).errorHidden = false ∧
    (generateTaskPlan sampleEngine (.response 200 (.ok (.arr [jsonA, .null])))
      (resultPage "x")).errorText =
      "Error: Failed to connect or process: Cannot read properties of null (reading dependencies)" ∧
    (generateTaskPlan sampleEngine (.response 200 (.ok (.arr [jsonA, .null])))
      (resultPage "x")).taskList = [taskA.card sampleEngine 0] ∧
    (generateTaskPlan sampleEngine (.response 200 (.ok (.arr [jsonA, .null])))
      (resultPage "x")).taskList ≠ [] := by
  refine ⟨by decide, rfl, rfl, rfl, by decide⟩

/-- C10, amended: for every prior content of the list container and every goal
that passes the validation, after settlement the container holds exactly the cards
built from the new response and none from an earlier request: nothing when the
request ends in a transport, parse, status or format error, the cards of the tasks
up to the first one whose rendering throws for a 2xx array, which are all N cards,
in order, when its N tasks are well-formed.  `displayTaskPlan` itself only appends
to the container. -/
theorem task_list_is_replaced (E : Engine) (net : FetchResult) (s : Dom)
    (h : jsTrim s.goalValue ≠ "") :
    (generateTaskPlan E net s).taskList = newCards E net ∧
    ((∀ status tasks, net = .response status (.ok (.arr tasks)) → responseOk status = false) →
      (generateTaskPlan E net s).taskList = []) ∧
    (∀ status jsons, net = .response status (.ok (.arr jsons)) → responseOk status = true →
      (generateTaskPlan E net s).taskList = cardsBuilt E 0 jsons ∧
      ∀ tasks, List.Forall₂ TaskShape jsons tasks →
        (generateTaskPlan E net s).taskList.length = jsons.length ∧
        ∀ (i : Nat) (t : Task), tasks[i]? = some t →
          (generateTaskPlan E net s).taskList[i]? = some (t.card E i)) ∧
    (∀ tasks t, (displayTaskPlan E tasks t).1.taskList = t.taskList ++ cardsBuilt E 0 tasks) := by
  have hp := (settled_panels E net s h).1
  refine ⟨hp, ?_, ?_, ?_⟩
  · intro hnet
    rw [hp]
    cases net with
    | rejected message => rfl
    | response status body =>
      cases body with
      | error message => rfl
      | ok data =>
        cases data with
        | arr xs => simp [newCards, hnet status xs rfl]
        | _ => rfl
  · intro status jsons hnet hok
    subst hnet
    have hl : (generateTaskPlan E (.response status (.ok (.arr jsons))) s).taskList
        = cardsBuilt E 0 jsons := by rw [hp]; simp [newCards, hok]
    refine ⟨hl, ?_⟩
    intro tasks hshape
    have hc := cardsBuilt_of_shapes E jsons tasks hshape 0
    rw [hl]
    exact ⟨hc.1, fun i t hi => by simpa using hc.2.2 i t hi⟩
  · intro tasks t
    rw [displayTaskPlan_fst]

theorem task_list_is_replaced_witness :
    jsTrim (resultPage "x").goalValue ≠ "" ∧
    (resultPage "x").taskList = [oldCard] ∧
    (generateTaskPlan sampleEngine (.response 200 (.ok (.arr [jsonB]))) (resultPage "x")).taskList
      = newCards sampleEngine (.response 200 (.ok (.arr [jsonB]))) ∧
    newCards sampleEngine (.response 200 (.ok (.arr [jsonB]))) = [taskB.card sampleEngine 0] :=
  ⟨by decide, rfl,
   (task_list_is_replaced sampleEngine (.response 200 (.ok (.arr [jsonB]))) (resultPage "x")
     (by decide)).1,
   rfl⟩

/-! ## Visible panels -/

/-- C5, as stated, fails in both cases it names.  After a successful request the
user empties the goal and calls again: the earlier Result panel stays visible next
to the error.  And a 2xx array whose element is null reveals the Result panel
before the exception shows the error.  Both starting states are reachable. -/
theorem two_panels_visible :
    Reachable sampleEngine
      { generateTaskPlan sampleEngine (.response 200 (.ok (.arr [jsonA]))) (idlePage "x")
        with goalValue := "" } ∧
    visiblePanels (generateTaskPlan sampleEngine (.rejected "Failed to fetch")
      { generateTaskPlan sampleEngine (.response 200 (.ok (.arr [jsonA]))) (idlePage "x")
        with goalValue := "" }) = 2 ∧
    Reachable sampleEngine (idlePage "x") ∧
    visiblePanels (generateTaskPlan sampleEngine (.response 200 (.ok (.arr [.null])))
      (idlePage "x")) = 2 := by
  refine ⟨?_, by decide, ?_, by decide⟩
  · exact .edit _ "" (.call _ _ (.idle _ ⟨rfl, rfl, rfl, rfl⟩))
  · exact .idle _ ⟨rfl, rfl, rfl, rfl⟩

/-- C5, amended: after a completed transition of `generateTaskPlan` from any
reachable state, exactly one of the panels Loading, Result, Error is visible,
provided that the call passes the validation and no exception is thrown while
rendering, or that the call ends in the validation error and the Result panel was
hidden when it was made. -/
theorem one_panel_visible (E : Engine) (net : FetchResult) (s : Dom)
    (hr : Reachable E s) :
    (jsTrim s.goalValue ≠ "" →
      (∀ status tasks t, net = .response status (.ok (.arr tasks)) →
        responseOk status = true → (displayTaskPlan E tasks t).2 = none) →
      visiblePanels (generateTaskPlan E net s) = 1) ∧
    (jsTrim s.goalValue = "" → s.outputHidden = true →
      visiblePanels (generateTaskPlan E net s) = 1) := by
  constructor
  · intro h hrender
    have hp := (settled_panels E net s h).2
    have he := settled_errorHidden E net s h
    have hc := (settled_cleanup E net s h).1
    rw [tryBlock_snd_isSome] at he
    cases net with
    | rejected message => simp_all [visiblePanels]
    | response status body =>
      cases body with
      | error message => simp_all [visiblePanels]
      | ok data =>
        by_cases hok : responseOk status = true
        · cases data with
          | arr xs =>
            have hn := hrender status xs
              (sendRequest (jsTrim s.goalValue) (resetDisplay s)) rfl hok
            simp [hok, hn] at he hp
            simp [visiblePanels, he, hp, hc]
          | _ => simp_all [visiblePanels]
        · have hok2 : responseOk status = false := by simpa using hok
          cases data <;> simp_all [visiblePanels]
  · intro h hout
    rw [generateTaskPlan_of_blank E net s h]
    simp [visiblePanels, displayError, hout, (reachable_is_settled E s hr).1]

theorem one_panel_visible_witness :
    (Reachable sampleEngine (idlePage "x") ∧ jsTrim (idlePage "x").goalValue ≠ "" ∧
      (∀ status tasks t,
        FetchResult.response 200 (.ok (.arr [jsonA, jsonB])) = .response status (.ok (.arr tasks)) →
        responseOk status = true → (displayTaskPlan sampleEngine tasks t).2 = none) ∧
      visiblePanels (generateTaskPlan sampleEngine (.response 200 (.ok (.arr [jsonA, jsonB])))
        (idlePage "x")) = 1) ∧
    (Reachable sampleEngine (idlePage "") ∧
      jsTrim (idlePage "").goalValue = "" ∧ (idlePage "").outputHidden = true ∧
      visiblePanels (generateTaskPlan sampleEngine (.rejected "Failed to fetch") (idlePage ""))
        = 1) :=
  have hrender : ∀ status tasks t,
      FetchResult.response 200 (.ok (.arr [jsonA, jsonB])) = .response status (.ok (.arr tasks)) →
      responseOk status = true → (displayTaskPlan sampleEngine tasks t).2 = none := by
    intro status tasks t hnet _
    cases hnet
    exact forEachTask_snd_of_shapes sampleEngine [jsonA, jsonB] [taskA, taskB]
      (.cons shape_jsonA (.cons shape_jsonB .nil)) 0 _
  ⟨⟨.idle _ ⟨rfl, rfl, rfl, rfl⟩, by decide, hrender,
    (one_panel_visible sampleEngine (.response 200 (.ok (.arr [jsonA, jsonB]))) (idlePage "x")
      (.idle _ ⟨rfl, rfl, rfl, rfl⟩)).1 (by decide) hrender⟩,
   ⟨.idle _ ⟨rfl, rfl, rfl, rfl⟩, by decide, rfl,
    (one_panel_visible sampleEngine (.rejected "Failed to fetch") (idlePage "")
      (.idle _ ⟨rfl, rfl, rfl, rfl⟩)).2 (by decide) rfl⟩⟩

end Unthinkable
